import Mathlib

/-!
Shallow embedding of the document-viewer widget
(`src/components/document-viewer-modal.tsx`) and the relay endpoint
(`src/app/api/proxy-pdf/route.js`).  Geometry and scales are modelled over
the rationals; event handlers become pure state-transition functions on an
explicit record of the component's React state and refs.
-/

namespace DocViewer

/-- Screen-space point, as used for pan offsets, pointer positions and
zoom origins (`interface Position` in the source). -/
structure Position where
  x : ℚ
  y : ℚ
  deriving DecidableEq, Repr

/-- Result of `getBoundingClientRect()` on a DOM element: the quantities
the handlers actually read. -/
structure Rect where
  left : ℚ
  top : ℚ
  width : ℚ
  height : ℚ
  deriving DecidableEq, Repr

/-- Constant `BASE_SCALE = 1.0` from the source. -/
def BASE_SCALE : ℚ := 1

/-- Constant `PADDING = 20` from the source. -/
def PADDING : ℚ := 20

/-- Constant `MAX_SCALE = 5` from the source. -/
def MAX_SCALE : ℚ := 5

/-- Constant `MIN_SCALE_FACTOR = 0.5` from the source. -/
def MIN_SCALE_FACTOR : ℚ := 1/2

/-- The component's state: the React `useState` hooks plus the mutable
refs (`startPanRef`, `panOffsetRef`, `lastTransformRef`) and the active
interaction mode. -/
structure ViewerState where
  numPages : ℤ
  pageNumber : ℤ
  scale : ℚ
  fitScale : ℚ
  error : Option String
  isLoading : Bool
  isPanning : Bool
  isFocused : Bool
  startPan : Position
  panOffset : Position
  lastTransform : Position
  activeMode : String
  deriving DecidableEq, Repr

/-- Initial state of a freshly mounted viewer: the `useState` initial
values and the refs' initial `{x: 0, y: 0}` values. -/
def initialState : ViewerState :=
  { numPages := 0
    pageNumber := 1
    scale := 1
    fitScale := 1
    error := none
    isLoading := true
    isPanning := false
    isFocused := false
    startPan := ⟨0, 0⟩
    panOffset := ⟨0, 0⟩
    lastTransform := ⟨0, 0⟩
    activeMode := "drag" }

/-- Result of the fit computation inside `calculateFitScale`: the new fit
scale together with the centered offset. -/
structure FitResult where
  fitScale : ℚ
  offset : Position
  deriving DecidableEq, Repr

/-- The arithmetic core of `calculateFitScale` (lines 81-111): scale
candidates from container minus padding over page size, their minimum, and
the centered offset for the scaled page. -/
def computeFitCore (containerWidth containerHeight pageWidth pageHeight padding : ℚ) :
    FitResult :=
  let scaleWidth := (containerWidth - padding * 2) / pageWidth
  let scaleHeight := (containerHeight - padding * 2) / pageHeight
  let newFitScale := min scaleWidth scaleHeight
  let scaledWidth := pageWidth * newFitScale
  let scaledHeight := pageHeight * newFitScale
  let xOffset := (containerWidth - scaledWidth) / 2
  let yOffset := (containerHeight - scaledHeight) / 2
  ⟨newFitScale, ⟨xOffset, yOffset⟩⟩

/-- State transition of `calculateFitScale`: guarded by `!isLoading` (the
ref null-checks are modelled as the dimensions being available), it sets
`fitScale` and `scale` to the new fit scale and both offset refs to the
centered offset. -/
def calculateFitScale (s : ViewerState)
    (containerWidth containerHeight pageWidth pageHeight : ℚ) : ViewerState :=
  if s.isLoading then s
  else
    let r := computeFitCore containerWidth containerHeight pageWidth pageHeight PADDING
    { s with fitScale := r.fitScale
             scale := r.fitScale
             panOffset := r.offset
             lastTransform := r.offset }

/-- The visual CSS transform written by `updateTransform`:
`translate(x, y) scale(k)` (translate first, then scale). -/
structure VisualTransform where
  translateX : ℚ
  translateY : ℚ
  scaleFactor : ℚ
  deriving DecidableEq, Repr

/-- Pure model of `updateTransform` (lines 149-171): given the container
and viewer client rects, the captured old scale, the current pan offset
and the new scale, it leaves the pan offset untouched when no zoom origin
is given, and otherwise shifts it by `(newSize - oldSize) * relative`
where `oldSize = viewerSize / oldScale`, `newSize = viewerSize / newScale`
and `relative` is the origin's fractional position inside the container
rect.  Returns the new pan offset and the applied visual transform. -/
def updateTransform (containerRect viewerRect : Rect) (oldScale : ℚ)
    (pan : Position) (newScale : ℚ) (zoomOrigin : Option Position) :
    Position × VisualTransform :=
  let pan' :=
    match zoomOrigin with
    | none => pan
    | some origin =>
        let relativeX := (origin.x - containerRect.left) / containerRect.width
        let relativeY := (origin.y - containerRect.top) / containerRect.height
        let oldWidth := viewerRect.width / oldScale
        let newWidth := viewerRect.width / newScale
        let oldHeight := viewerRect.height / oldScale
        let newHeight := viewerRect.height / newScale
        ⟨pan.x + (newWidth - oldWidth) * relativeX,
         pan.y + (newHeight - oldHeight) * relativeY⟩
  (pan', ⟨pan'.x, pan'.y, newScale⟩)

/-- State transition of `handleWheel` (lines 173-211).  Fires only when a
modifier key (ctrl or meta) is held and the container is focused; computes
the world point under the cursor from the old scale, clamps the new scale
(ceiling 5 when zooming in, floor `fitScale * 0.5` when zooming out, by
factor 1.1 per tick), and re-anchors the pan offset so the world point
maps back to the cursor pixel.  The trailing `updateTransform(newScale)`
call in the source passes no zoom origin, so it does not change the pan
offset again. -/
def handleWheel (s : ViewerState) (containerRect : Rect)
    (ctrlOrMeta : Bool) (clientX clientY deltaY : ℚ) : ViewerState :=
  if ctrlOrMeta && s.isFocused then
    let delta := -deltaY
    let mouseX := clientX - containerRect.left
    let mouseY := clientY - containerRect.top
    let pointXBeforeZoom := (mouseX - s.panOffset.x) / s.scale
    let pointYBeforeZoom := (mouseY - s.panOffset.y) / s.scale
    let newScale :=
      if delta > 0 then min 5 (s.scale * (11/10))
      else max (s.fitScale * (1/2)) (s.scale / (11/10))
    let pointXAfterZoom := pointXBeforeZoom * newScale
    let pointYAfterZoom := pointYBeforeZoom * newScale
    { s with scale := newScale
             panOffset := ⟨mouseX - pointXAfterZoom, mouseY - pointYAfterZoom⟩ }
  else s

/-- State transition of `handleMouseDown` (lines 213-219): a primary
button press starts panning, records the start pointer and snapshots the
current pan offset into `lastTransformRef`. -/
def handleMouseDown (s : ViewerState) (button : ℕ) (clientX clientY : ℚ) :
    ViewerState :=
  if button = 0 then
    { s with isPanning := true
             startPan := ⟨clientX, clientY⟩
             lastTransform := s.panOffset }
  else s

/-- State transition of `handleMouseMove` (lines 221-233): while panning,
the pan offset becomes the snapshot plus the pointer delta; the scale is
untouched and `updateTransform(scale)` is called with no zoom origin. -/
def handleMouseMove (s : ViewerState) (clientX clientY : ℚ) : ViewerState :=
  if s.isPanning then
    { s with panOffset :=
        ⟨s.lastTransform.x + (clientX - s.startPan.x),
         s.lastTransform.y + (clientY - s.startPan.y)⟩ }
  else s

/-- State transition of `handleMouseUp` (lines 235-237). -/
def handleMouseUp (s : ViewerState) : ViewerState :=
  { s with isPanning := false }

/-- The handler that actually runs on `mouseleave`.  The container div
(lines 311-321) declares `onMouseLeave` twice: first
`onMouseLeave={handleMouseUp}` (line 317), then
`onMouseLeave={() => setIsFocused(false)}` (line 319).  In JSX the props
become one object literal, so the later duplicate key wins and only
`setIsFocused(false)` runs on mouse leave; `handleMouseUp` is dead. -/
def containerMouseLeave (s : ViewerState) : ViewerState :=
  { s with isFocused := false }

/-- The `onMouseEnter` handler on the container div (line 318). -/
def containerMouseEnter (s : ViewerState) : ViewerState :=
  { s with isFocused := true }

/-- The `Page` element's `onLoadSuccess` callback (line 367). -/
def finishLoading (s : ViewerState) : ViewerState :=
  { s with isLoading := false }

/-- State transition of `handleResetView` (lines 239-244): scale back to
the fit scale, both offset refs zeroed (not recentered). -/
def handleResetView (s : ViewerState) : ViewerState :=
  { s with scale := s.fitScale
           panOffset := ⟨0, 0⟩
           lastTransform := ⟨0, 0⟩ }

/-- The reset effect that runs when `isOpen` becomes false
(lines 114-125): page state, zoom state, error and loading flags and both
offset refs go back to their initial values.  Note `activeMode`,
`isPanning`, `isFocused` and `startPanRef` are not touched. -/
def closeResetEffect (s : ViewerState) : ViewerState :=
  { s with numPages := 0
           pageNumber := 1
           scale := 1
           fitScale := 1
           error := none
           isLoading := true
           panOffset := ⟨0, 0⟩
           lastTransform := ⟨0, 0⟩ }

/-- State transition of `handleZoomIn` (lines 262-272): new scale
`min(5, scale * 1.1)`, anchored at the container rect's center via
`updateTransform`; note the `scale` read inside `updateTransform` is still
the old scale (React state updates are not yet visible). -/
def handleZoomIn (s : ViewerState) (containerRect viewerRect : Rect) :
    ViewerState :=
  let centerX := containerRect.left + containerRect.width / 2
  let centerY := containerRect.top + containerRect.height / 2
  let newScale := min 5 (s.scale * (11/10))
  let r := updateTransform containerRect viewerRect s.scale s.panOffset newScale
    (some ⟨centerX, centerY⟩)
  { s with scale := newScale, panOffset := r.1 }

/-- State transition of `handleZoomOut` (lines 274-284): new scale
`max(fitScale * 0.5, scale / 1.1)`, anchored at the container center. -/
def handleZoomOut (s : ViewerState) (containerRect viewerRect : Rect) :
    ViewerState :=
  let centerX := containerRect.left + containerRect.width / 2
  let centerY := containerRect.top + containerRect.height / 2
  let newScale := max (s.fitScale * (1/2)) (s.scale / (11/10))
  let r := updateTransform containerRect viewerRect s.scale s.panOffset newScale
    (some ⟨centerX, centerY⟩)
  { s with scale := newScale, panOffset := r.1 }

/-- The previous-page button's `onClick` (lines 384-386):
`setPageNumber(prev => Math.max(1, prev - 1))`. -/
def prevPageClick (s : ViewerState) : ViewerState :=
  { s with pageNumber := max 1 (s.pageNumber - 1) }

/-- The previous-page button including its `disabled={pageNumber <= 1}`
attribute (line 387): a disabled button never fires its `onClick`. -/
def prevPageButton (s : ViewerState) : ViewerState :=
  if s.pageNumber ≤ 1 then s else prevPageClick s

/-- The next-page button's `onClick` (lines 404-406):
`setPageNumber(prev => Math.min(numPages, prev + 1))`. -/
def nextPageClick (s : ViewerState) : ViewerState :=
  { s with pageNumber := min s.numPages (s.pageNumber + 1) }

/-- The next-page button including its `disabled={pageNumber >= numPages}`
attribute (line 407). -/
def nextPageButton (s : ViewerState) : ViewerState :=
  if s.pageNumber ≥ s.numPages then s else nextPageClick s

/-- One zoom operation, wheel or button, with the DOM geometry it reads.
Wheel operations are taken with the modifier key held; the button
operations include the buttons' `disabled` guards
(`scale >= MAX_SCALE` for zoom-in, `scale <= fitScale * MIN_SCALE_FACTOR`
for zoom-out, lines 425 and 443). -/
inductive ZoomOp where
  | wheel (containerRect : Rect) (clientX clientY deltaY : ℚ)
  | buttonIn (containerRect viewerRect : Rect)
  | buttonOut (containerRect viewerRect : Rect)
  deriving Repr

/-- Apply one zoom operation to the viewer state. -/
def applyZoomOp (s : ViewerState) (op : ZoomOp) : ViewerState :=
  match op with
  | .wheel cr cx cy dy => handleWheel s cr true cx cy dy
  | .buttonIn cr vr => if s.scale ≥ MAX_SCALE then s else handleZoomIn s cr vr
  | .buttonOut cr vr =>
      if s.scale ≤ s.fitScale * MIN_SCALE_FACTOR then s else handleZoomOut s cr vr

/-- Run a sequence of zoom operations. -/
def runZoomOps (s : ViewerState) (ops : List ZoomOp) : ViewerState :=
  ops.foldl applyZoomOp s

/-- Outcome of the relay's upstream `fetch` (route.js lines 12-16): a
network-level failure (the promise rejects), or a response with its HTTP
status, content-type header and body bytes. -/
inductive UpstreamResult where
  | networkFailure
  | fetched (status : ℤ) (contentType : Option String) (body : List ℕ)
  deriving DecidableEq, Repr

/-- The `Response.ok` flag of the fetch API: status in the range 200-299. -/
def upstreamOk (status : ℤ) : Bool :=
  200 ≤ status ∧ status < 300

/-- Body of a relay response: a string (plain text or serialized JSON) or
raw bytes passed through from upstream. -/
inductive RelayBody where
  | textBody (s : String)
  | byteBody (b : List ℕ)
  deriving DecidableEq, Repr

/-- A relay response: status, the headers the handler sets explicitly
(absent means the framework default), and the body. -/
structure RelayResponse where
  status : ℤ
  contentTypeHeader : Option String
  dispositionHeader : Option String
  cacheControlHeader : Option String
  body : RelayBody
  deriving DecidableEq, Repr

/-- The serialized JSON error body
`JSON.stringify({ error: "Failed to fetch PDF" })` (route.js line 38). -/
def jsonErrorBody : String := "\x7b\"error\":\"Failed to fetch PDF\"\x7d"

/-- The 500 response built in the catch block (route.js lines 36-44). -/
def relayError500 : RelayResponse :=
  { status := 500
    contentTypeHeader := some "application/json"
    dispositionHeader := none
    cacheControlHeader := none
    body := .textBody jsonErrorBody }

/-- The relay GET handler (route.js lines 3-45).  `urlParam` is
`searchParams.get("url")`: `none` when the parameter is absent, otherwise
its string value.  The source's `if (!url)` check is JavaScript
falsiness, so it also triggers on the empty string.  A non-ok upstream
status throws into the catch block; a non-PDF upstream content-type only
logs a warning and is passed through as a 200. -/
def relayGET (urlParam : Option String) (upstream : UpstreamResult) :
    RelayResponse :=
  if urlParam = none ∨ urlParam = some "" then
    { status := 400
      contentTypeHeader := none
      dispositionHeader := none
      cacheControlHeader := none
      body := .textBody "Missing URL parameter" }
  else
    match upstream with
    | .networkFailure => relayError500
    | .fetched status _ body =>
        if upstreamOk status then
          { status := 200
            contentTypeHeader := some "application/pdf"
            dispositionHeader := some "inline; filename=\"document.pdf\""
            cacheControlHeader := some "public, max-age=3600"
            body := .byteBody body }
        else relayError500

/-!
Theorems.
-/

/-- C1: for non-zero (positive) content dimensions and non-negative scale
candidates, the fit computation returns exactly
`fitScale = min((containerWidth - 2·padding)/contentWidth,
(containerHeight - 2·padding)/contentHeight)` with no floor or ceiling,
and the centered offsets `(containerSize - contentSize·fitScale)/2`;
consequently the scaled content fits inside the padded container in both
dimensions, with equality in at least one. -/
theorem computeFit_spec (containerWidth containerHeight pageWidth pageHeight padding : ℚ)
    (hpw : 0 < pageWidth) (hph : 0 < pageHeight)
    (_hsw : 0 ≤ (containerWidth - padding * 2) / pageWidth)
    (_hsh : 0 ≤ (containerHeight - padding * 2) / pageHeight) :
    (computeFitCore containerWidth containerHeight pageWidth pageHeight padding).fitScale
        = min ((containerWidth - padding * 2) / pageWidth)
            ((containerHeight - padding * 2) / pageHeight) ∧
    (computeFitCore containerWidth containerHeight pageWidth pageHeight padding).offset.x
        = (containerWidth - pageWidth *
            (computeFitCore containerWidth containerHeight pageWidth pageHeight padding).fitScale) / 2 ∧
    (computeFitCore containerWidth containerHeight pageWidth pageHeight padding).offset.y
        = (containerHeight - pageHeight *
            (computeFitCore containerWidth containerHeight pageWidth pageHeight padding).fitScale) / 2 ∧
    pageWidth * (computeFitCore containerWidth containerHeight pageWidth pageHeight padding).fitScale
        ≤ containerWidth - padding * 2 ∧
    pageHeight * (computeFitCore containerWidth containerHeight pageWidth pageHeight padding).fitScale
        ≤ containerHeight - padding * 2 ∧
    (pageWidth * (computeFitCore containerWidth containerHeight pageWidth pageHeight padding).fitScale
        = containerWidth - padding * 2 ∨
     pageHeight * (computeFitCore containerWidth containerHeight pageWidth pageHeight padding).fitScale
        = containerHeight - padding * 2) := by
  have hpw' : pageWidth ≠ 0 := ne_of_gt hpw
  have hph' : pageHeight ≠ 0 := ne_of_gt hph
  have hfit : (computeFitCore containerWidth containerHeight pageWidth pageHeight padding).fitScale
      = min ((containerWidth - padding * 2) / pageWidth)
          ((containerHeight - padding * 2) / pageHeight) := rfl
  refine ⟨hfit, rfl, rfl, ?_, ?_, ?_⟩
  · rw [hfit]
    calc pageWidth * min ((containerWidth - padding * 2) / pageWidth)
            ((containerHeight - padding * 2) / pageHeight)
        ≤ pageWidth * ((containerWidth - padding * 2) / pageWidth) :=
          mul_le_mul_of_nonneg_left (min_le_left _ _) (le_of_lt hpw)
      _ = containerWidth - padding * 2 := by field_simp
  · rw [hfit]
    calc pageHeight * min ((containerWidth - padding * 2) / pageWidth)
            ((containerHeight - padding * 2) / pageHeight)
        ≤ pageHeight * ((containerHeight - padding * 2) / pageHeight) :=
          mul_le_mul_of_nonneg_left (min_le_right _ _) (le_of_lt hph)
      _ = containerHeight - padding * 2 := by field_simp
  · rw [hfit]
    rcases min_cases ((containerWidth - padding * 2) / pageWidth)
        ((containerHeight - padding * 2) / pageHeight) with ⟨hmin, _⟩ | ⟨hmin, _⟩
    · left
      rw [hmin]
      field_simp
    · right
      rw [hmin]
      field_simp

/-- Witness for C1 at the spec's end-to-end example: container 800×600,
content 1600×1200, padding 20 gives fit scale
`min(760/1600, 560/1200) = 7/15`. -/
theorem computeFit_spec_witness :
    (computeFitCore 800 600 1600 1200 20).fitScale = 7/15 :=
  (computeFit_spec 800 600 1600 1200 20 (by norm_num) (by norm_num)
      (by norm_num) (by norm_num)).1.trans (by norm_num [min_def])

/-- C2: for a wheel-zoom operation with the modifier key held and the
container focused, the world point under the cursor computed at the old
scale maps back to the same container pixel after the operation: with
`p = (cursorPixel - panOffset) / oldScale` one has
`p · newScale + panOffset· = cursorPixel`, exactly over ℚ, in both
coordinates. -/
theorem wheelZoom_cursor_anchor (s : ViewerState) (containerRect : Rect)
    (clientX clientY deltaY : ℚ)
    (hfocus : s.isFocused = true) (_hscale : 0 < s.scale) :
    ((clientX - containerRect.left - s.panOffset.x) / s.scale)
        * (handleWheel s containerRect true clientX clientY deltaY).scale
      + (handleWheel s containerRect true clientX clientY deltaY).panOffset.x
      = clientX - containerRect.left ∧
    ((clientY - containerRect.top - s.panOffset.y) / s.scale)
        * (handleWheel s containerRect true clientX clientY deltaY).scale
      + (handleWheel s containerRect true clientX clientY deltaY).panOffset.y
      = clientY - containerRect.top := by
  simp only [handleWheel, hfocus, Bool.and_true, if_true]
  constructor <;> ring

/-- Concrete viewer state with the pointer inside the container, used to
witness the wheel-zoom anchor theorem. -/
def wheelWitnessState : ViewerState := { initialState with isFocused := true }

/-- Witness for C2 at a concrete focused state and wheel event. -/
theorem wheelZoom_cursor_anchor_witness :
    ((100 - (⟨0, 0, 800, 600⟩ : Rect).left - wheelWitnessState.panOffset.x)
          / wheelWitnessState.scale)
        * (handleWheel wheelWitnessState ⟨0, 0, 800, 600⟩ true 100 80 (-3)).scale
      + (handleWheel wheelWitnessState ⟨0, 0, 800, 600⟩ true 100 80 (-3)).panOffset.x
      = 100 - (⟨0, 0, 800, 600⟩ : Rect).left :=
  (wheelZoom_cursor_anchor wheelWitnessState ⟨0, 0, 800, 600⟩ 100 80 (-3)
      rfl (by norm_num [wheelWitnessState, initialState])).1

/-- C6: the reset action sets `scale := fitScale` and zeroes the pan
offset (it does not restore the centered offset), and applying it twice
yields exactly the same state as applying it once. -/
theorem resetView_zeroes_and_idempotent (s : ViewerState) :
    (handleResetView s).scale = s.fitScale ∧
    (handleResetView s).fitScale = s.fitScale ∧
    (handleResetView s).panOffset = ⟨0, 0⟩ ∧
    handleResetView (handleResetView s) = handleResetView s :=
  ⟨rfl, rfl, rfl, rfl⟩

/-- C8: the close-reset effect restores `scale = fitScale = 1`,
`panOffset = {0,0}`, `page = 1`, `numPages = 0`, the loading flag and a
clear error, from any prior state. -/
theorem closeReset_restores_defaults (s : ViewerState) :
    (closeResetEffect s).scale = 1 ∧
    (closeResetEffect s).fitScale = 1 ∧
    (closeResetEffect s).panOffset = ⟨0, 0⟩ ∧
    (closeResetEffect s).pageNumber = 1 ∧
    (closeResetEffect s).numPages = 0 ∧
    (closeResetEffect s).isLoading = true ∧
    (closeResetEffect s).error = none ∧
    (closeResetEffect s).lastTransform = ⟨0, 0⟩ :=
  ⟨rfl, rfl, rfl, rfl, rfl, rfl, rfl, rfl⟩

/-- C10: the close-reset effect leaves `activeMode` untouched, so a
reopened viewer keeps the mode from before closing and can start in a
non-default mode such as "ruler". -/
theorem closeReset_preserves_activeMode (s : ViewerState) :
    (closeResetEffect s).activeMode = s.activeMode ∧
    (closeResetEffect { s with activeMode := "ruler" }).activeMode = "ruler" :=
  ⟨rfl, rfl⟩

/-- C4: evaluation at the failing input.  A primary-button pointer-down
starts a pan session, but a subsequent pointer-leave does NOT end it: the
container div's duplicated `onMouseLeave` prop means only
`setIsFocused(false)` runs on mouse leave, `handleMouseUp` is shadowed, so
`isPanning` stays `true` and a later pointer-move still pans
(here from offset `{0,0}` to `{10,10}`). -/
theorem mouseLeave_does_not_end_pan :
    (handleMouseDown initialState 0 100 120).isPanning = true ∧
    (containerMouseLeave (handleMouseDown initialState 0 100 120)).isPanning = true ∧
    (containerMouseLeave (handleMouseDown initialState 0 100 120)).isFocused = false ∧
    (handleMouseMove (containerMouseLeave (handleMouseDown initialState 0 100 120))
        110 130).panOffset
      = ⟨100 + (110 - 100) - 100, 120 + (130 - 120) - 120⟩ := by
  refine ⟨rfl, rfl, rfl, ?_⟩
  simp only [handleMouseDown, handleMouseMove, containerMouseLeave, initialState]
  norm_num

/-- C5: button zoom anchors at the container's visual center: the
relative anchor position is 1/2 in both axes, so the pan offset moves by
`(viewerSize/newScale - viewerSize/oldScale) · 1/2`, with
`newScale = min(5, scale·1.1)` for zoom-in and
`newScale = max(fitScale·0.5, scale/1.1)` for zoom-out; and with no
anchor, `updateTransform` keeps the pan offset unchanged and applies
translate-then-scale with it. -/
theorem buttonZoom_center_anchor (s : ViewerState) (containerRect viewerRect : Rect)
    (hw : containerRect.width ≠ 0) (hh : containerRect.height ≠ 0) :
    ((handleZoomIn s containerRect viewerRect).scale = min 5 (s.scale * (11/10)) ∧
     (handleZoomIn s containerRect viewerRect).panOffset.x
        = s.panOffset.x
          + (viewerRect.width / min 5 (s.scale * (11/10)) - viewerRect.width / s.scale)
            * (1/2) ∧
     (handleZoomIn s containerRect viewerRect).panOffset.y
        = s.panOffset.y
          + (viewerRect.height / min 5 (s.scale * (11/10)) - viewerRect.height / s.scale)
            * (1/2)) ∧
    ((handleZoomOut s containerRect viewerRect).scale
        = max (s.fitScale * (1/2)) (s.scale / (11/10)) ∧
     (handleZoomOut s containerRect viewerRect).panOffset.x
        = s.panOffset.x
          + (viewerRect.width / max (s.fitScale * (1/2)) (s.scale / (11/10))
              - viewerRect.width / s.scale) * (1/2) ∧
     (handleZoomOut s containerRect viewerRect).panOffset.y
        = s.panOffset.y
          + (viewerRect.height / max (s.fitScale * (1/2)) (s.scale / (11/10))
              - viewerRect.height / s.scale) * (1/2)) ∧
    (∀ (pan : Position) (oldScale newScale : ℚ),
      updateTransform containerRect viewerRect oldScale pan newScale none
        = (pan, ⟨pan.x, pan.y, newScale⟩)) := by
  have hrelx : (containerRect.left + containerRect.width / 2 - containerRect.left)
      / containerRect.width = 1/2 := by
    field_simp
    ring
  have hrely : (containerRect.top + containerRect.height / 2 - containerRect.top)
      / containerRect.height = 1/2 := by
    field_simp
    ring
  refine ⟨⟨rfl, ?_, ?_⟩, ⟨rfl, ?_, ?_⟩, fun pan oldScale newScale => rfl⟩ <;>
    simp only [handleZoomIn, handleZoomOut, updateTransform, hrelx, hrely]

/-- Witness for C5 at a concrete state and concrete non-degenerate
container rect. -/
theorem buttonZoom_center_anchor_witness :
    (handleZoomIn initialState ⟨0, 0, 800, 600⟩ ⟨5, 5, 400, 300⟩).scale
      = min 5 (initialState.scale * (11/10)) :=
  ((buttonZoom_center_anchor initialState ⟨0, 0, 800, 600⟩ ⟨5, 5, 400, 300⟩
      (by norm_num) (by norm_num)).1).1

/-- C7 (amended), for page-cursor states with `current ≥ 1`: previous at
page 1 is a no-op, next at the last page is a no-op, next is a no-op
whenever `total = 0`, previous is a no-op when `total = 0` and
`current = 1`, both actions change nothing but the current page number,
and both keep `current` in `[1, total]` whenever it starts there. -/
theorem pageNav_clamped (s : ViewerState) (hc : 1 ≤ s.pageNumber) :
    (s.pageNumber = 1 → prevPageButton s = s) ∧
    (s.pageNumber = s.numPages → nextPageButton s = s) ∧
    (s.numPages = 0 → nextPageButton s = s) ∧
    (s.numPages = 0 → s.pageNumber = 1 → prevPageButton s = s) ∧
    prevPageButton s = { s with pageNumber := (prevPageButton s).pageNumber } ∧
    nextPageButton s = { s with pageNumber := (nextPageButton s).pageNumber } ∧
    (s.pageNumber ≤ s.numPages →
      1 ≤ (prevPageButton s).pageNumber ∧
      (prevPageButton s).pageNumber ≤ s.numPages ∧
      1 ≤ (nextPageButton s).pageNumber ∧
      (nextPageButton s).pageNumber ≤ s.numPages) := by
  refine ⟨?_, ?_, ?_, ?_, ?_, ?_, ?_⟩
  · intro h1
    simp [prevPageButton, h1]
  · intro hlast
    simp [nextPageButton, hlast]
  · intro h0
    have : s.pageNumber ≥ s.numPages := by omega
    simp [nextPageButton, this]
  · intro h0 h1
    simp [prevPageButton, h1]
  · by_cases h : s.pageNumber ≤ 1 <;> simp [prevPageButton, prevPageClick, h]
  · by_cases h : s.pageNumber ≥ s.numPages <;> simp [nextPageButton, nextPageClick, h]
  · intro hle
    refine ⟨?_, ?_, ?_, ?_⟩ <;>
      · by_cases h : s.pageNumber ≤ 1 <;>
          by_cases h' : s.pageNumber ≥ s.numPages <;>
          simp [prevPageButton, prevPageClick, nextPageButton, nextPageClick, h, h'] <;>
          omega

/-- Witness for C7 at the initial state (page 1 of 0): both buttons are
no-ops. -/
theorem pageNav_clamped_witness :
    prevPageButton initialState = initialState ∧
    nextPageButton initialState = initialState :=
  ⟨(pageNav_clamped initialState (by decide)).1 rfl,
   (pageNav_clamped initialState (by decide)).2.2.1 rfl⟩

/-- A page-cursor state with `current = 2` while `total = 0`; it
satisfies the PageCursor data model (`current ≥ 1`, `total ≥ 0`). -/
def staleCursorState : ViewerState := { initialState with pageNumber := 2 }

/-- Counterexample to C7 as stated: at `current = 2, total = 0` the
previous-page button is enabled (its guard is `pageNumber <= 1`) and its
click changes the page to 1, so previous is not a no-op at a state with
`total = 0`. -/
theorem prevPage_not_noop_at_total_zero :
    staleCursorState.numPages = 0 ∧
    1 ≤ staleCursorState.pageNumber ∧
    (prevPageButton staleCursorState).pageNumber = 1 ∧
    prevPageButton staleCursorState ≠ staleCursorState := by
  refine ⟨rfl, by decide, ?_, ?_⟩
  · simp [prevPageButton, prevPageClick, staleCursorState, initialState]
  · intro h
    have : (prevPageButton staleCursorState).pageNumber = staleCursorState.pageNumber :=
      congrArg ViewerState.pageNumber h
    simp [prevPageButton, prevPageClick, staleCursorState, initialState] at this

/-- Zoom operations never change the fit scale. -/
theorem applyZoomOp_fitScale (s : ViewerState) (op : ZoomOp) :
    (applyZoomOp s op).fitScale = s.fitScale := by
  rcases op with ⟨cr, cx, cy, dy⟩ | ⟨cr, vr⟩ | ⟨cr, vr⟩ <;>
    simp only [applyZoomOp, handleWheel, handleZoomIn, handleZoomOut] <;>
    split_ifs <;> rfl

/-- One zoom operation keeps the scale inside `[fitScale/2, 5]` provided
it starts there and `0 ≤ fitScale ≤ 10`. -/
theorem applyZoomOp_scale_bounds (s : ViewerState) (op : ZoomOp)
    (hf0 : 0 ≤ s.fitScale) (hf10 : s.fitScale ≤ 10)
    (hlo : s.fitScale * (1/2) ≤ s.scale) (hhi : s.scale ≤ 5) :
    s.fitScale * (1/2) ≤ (applyZoomOp s op).scale ∧ (applyZoomOp s op).scale ≤ 5 := by
  have hs0 : 0 ≤ s.scale := le_trans (mul_nonneg hf0 (by norm_num)) hlo
  have hhalf : s.fitScale * (1/2) ≤ 5 := by linarith
  have hin : s.fitScale * (1/2) ≤ min 5 (s.scale * (11/10)) ∧
      min 5 (s.scale * (11/10)) ≤ 5 := by
    refine ⟨le_min hhalf ?_, min_le_left _ _⟩
    linarith
  have hout : s.fitScale * (1/2) ≤ max (s.fitScale * (1/2)) (s.scale / (11/10)) ∧
      max (s.fitScale * (1/2)) (s.scale / (11/10)) ≤ 5 := by
    refine ⟨le_max_left _ _, max_le hhalf ?_⟩
    rw [div_le_iff₀ (by norm_num : (0:ℚ) < 11/10)]
    linarith
  rcases op with ⟨cr, cx, cy, dy⟩ | ⟨cr, vr⟩ | ⟨cr, vr⟩ <;>
    simp only [applyZoomOp, handleWheel, handleZoomIn, handleZoomOut, Bool.true_and] <;>
    split_ifs <;>
    first
      | exact ⟨hlo, hhi⟩
      | exact hin
      | exact hout

/-- C3 (amended): from a state whose scale already lies in
`[fitScale·0.5, 5]` and whose fit scale lies in `[0, 10]`, every sequence
of wheel/button zoom operations keeps the scale in `[fitScale·0.5, 5]`
(and leaves the fit scale unchanged). -/
theorem zoomOps_scale_clamped (s : ViewerState) (ops : List ZoomOp)
    (hf0 : 0 ≤ s.fitScale) (hf10 : s.fitScale ≤ 10)
    (hlo : s.fitScale * (1/2) ≤ s.scale) (hhi : s.scale ≤ 5) :
    (runZoomOps s ops).fitScale = s.fitScale ∧
    s.fitScale * (1/2) ≤ (runZoomOps s ops).scale ∧
    (runZoomOps s ops).scale ≤ 5 := by
  induction ops generalizing s with
  | nil => exact ⟨rfl, hlo, hhi⟩
  | cons op ops ih =>
      have hfit := applyZoomOp_fitScale s op
      have hb := applyZoomOp_scale_bounds s op hf0 hf10 hlo hhi
      have hrec := ih (applyZoomOp s op) (hfit ▸ hf0) (hfit ▸ hf10)
        (hfit ▸ hb.1) hb.2
      have hrun : runZoomOps s (op :: ops) = runZoomOps (applyZoomOp s op) ops := rfl
      rw [hrun]
      exact ⟨hrec.1.trans hfit, (hfit ▸ hrec.2.1 : _), hrec.2.2⟩

/-- Witness for the amended C3: from the initial (focused) state, a
wheel-zoom-in followed by a button zoom-out keeps the scale in
`[fitScale·0.5, 5]`. -/
theorem zoomOps_scale_clamped_witness :
    (runZoomOps wheelWitnessState
        [ZoomOp.wheel ⟨0, 0, 800, 600⟩ 100 80 (-3),
         ZoomOp.buttonOut ⟨0, 0, 800, 600⟩ ⟨5, 5, 400, 300⟩]).fitScale
      = wheelWitnessState.fitScale ∧
    wheelWitnessState.fitScale * (1/2)
      ≤ (runZoomOps wheelWitnessState
          [ZoomOp.wheel ⟨0, 0, 800, 600⟩ 100 80 (-3),
           ZoomOp.buttonOut ⟨0, 0, 800, 600⟩ ⟨5, 5, 400, 300⟩]).scale ∧
    (runZoomOps wheelWitnessState
        [ZoomOp.wheel ⟨0, 0, 800, 600⟩ 100 80 (-3),
         ZoomOp.buttonOut ⟨0, 0, 800, 600⟩ ⟨5, 5, 400, 300⟩]).scale ≤ 5 :=
  zoomOps_scale_clamped wheelWitnessState _
    (by norm_num [wheelWitnessState, initialState])
    (by norm_num [wheelWitnessState, initialState])
    (by norm_num [wheelWitnessState, initialState])
    (by norm_num [wheelWitnessState, initialState])

/-- The viewer state reached by loading a 100×100 page into a 740×740
container: the fit calculation sets `fitScale = scale = (740 - 40)/100 = 7`
with no ceiling applied. -/
def wideFitState : ViewerState :=
  calculateFitScale (containerMouseEnter (finishLoading initialState)) 740 740 100 100

/-- Counterexample to C3 as stated: `wideFitState` is reachable (load
completes, pointer enters, fit is computed) with
`scale = fitScale = 7 > 5`; a single wheel zoom-out from it yields
`scale = max(3.5, 7/1.1) = 70/11 ≈ 6.36`, which is outside the claimed
interval `[fitScale·0.5, 5] = [3.5, 5]`.  The 5.0 ceiling is only applied
on zoom-in, so a zoom operation from this reachable state ends above 5. -/
theorem wheelZoomOut_escapes_claimed_interval :
    wideFitState.fitScale = 7 ∧
    wideFitState.scale = 7 ∧
    (runZoomOps wideFitState [ZoomOp.wheel ⟨0, 0, 740, 740⟩ 100 100 3]).scale = 70/11 ∧
    ¬ ((runZoomOps wideFitState
          [ZoomOp.wheel ⟨0, 0, 740, 740⟩ 100 100 3]).scale ≤ 5) := by
  have hfit : wideFitState.fitScale = 7 := by
    norm_num [wideFitState, calculateFitScale, computeFitCore, containerMouseEnter,
      finishLoading, initialState, PADDING]
  have hsc : wideFitState.scale = 7 := by
    norm_num [wideFitState, calculateFitScale, computeFitCore, containerMouseEnter,
      finishLoading, initialState, PADDING]
  have hfoc : wideFitState.isFocused = true := by
    norm_num [wideFitState, calculateFitScale, computeFitCore, containerMouseEnter,
      finishLoading, initialState, PADDING]
  have hrun : (runZoomOps wideFitState
      [ZoomOp.wheel ⟨0, 0, 740, 740⟩ 100 100 3]).scale = 70/11 := by
    show (handleWheel wideFitState ⟨0, 0, 740, 740⟩ true 100 100 3).scale = 70/11
    simp only [handleWheel, hfoc, Bool.and_true, if_true]
    norm_num [hfit, hsc, max_def]
  exact ⟨hfit, hsc, hrun, by rw [hrun]; norm_num⟩

/-- C9 (amended): the relay returns 400 with the plain-text body exactly
when the `url` parameter is missing or empty (JavaScript falsiness of
`!url`); 500 with the JSON error body when the upstream fetch fails at
the network level or returns a non-2xx status; and otherwise 200 with the
upstream bytes and the fixed PDF headers, even when the upstream
content-type is not a PDF. -/
theorem relayGET_behavior (u : Option String) (up : UpstreamResult) :
    ((u = none ∨ u = some "") →
      relayGET u up =
        { status := 400, contentTypeHeader := none, dispositionHeader := none,
          cacheControlHeader := none, body := .textBody "Missing URL parameter" }) ∧
    (¬ (u = none ∨ u = some "") → up = .networkFailure →
      relayGET u up = relayError500) ∧
    (∀ st ct b, ¬ (u = none ∨ u = some "") → up = .fetched st ct b →
      upstreamOk st = false → relayGET u up = relayError500) ∧
    (∀ st ct b, ¬ (u = none ∨ u = some "") → up = .fetched st ct b →
      upstreamOk st = true →
      relayGET u up =
        { status := 200, contentTypeHeader := some "application/pdf",
          dispositionHeader := some "inline; filename=\"document.pdf\"",
          cacheControlHeader := some "public, max-age=3600",
          body := .byteBody b }) ∧
    ((relayGET u up).status = 400 ↔ (u = none ∨ u = some "")) := by
  by_cases hu : u = none ∨ u = some ""
  · refine ⟨fun _ => by simp [relayGET, hu], fun h => absurd hu h,
      fun st ct b h => absurd hu h, fun st ct b h => absurd hu h, ?_⟩
    simp [relayGET, hu]
  · refine ⟨fun h => absurd h hu, fun _ hnet => by simp [relayGET, hu, hnet],
      fun st ct b _ hup hok => by simp [relayGET, hu, hup, hok, relayError500],
      fun st ct b _ hup hok => by simp [relayGET, hu, hup, hok], ?_⟩
    rcases up with _ | ⟨st, ct, b⟩
    · simp [relayGET, hu, relayError500]
    · rcases hok : upstreamOk st <;>
        simp [relayGET, hu, hok, relayError500, hu]

/-- Witness for C9: a present, non-empty url with an ok upstream response
whose content-type is `text/html` still yields the 200 pass-through with
PDF headers. -/
theorem relayGET_behavior_witness :
    relayGET (some "a") (.fetched 200 (some "text/html") [1, 2]) =
      { status := 200, contentTypeHeader := some "application/pdf",
        dispositionHeader := some "inline; filename=\"document.pdf\"",
        cacheControlHeader := some "public, max-age=3600",
        body := .byteBody [1, 2] } :=
  (relayGET_behavior (some "a") (.fetched 200 (some "text/html") [1, 2])).2.2.2.1
    200 (some "text/html") [1, 2] (by decide) rfl (by decide)

/-- Counterexample to C9 as stated: a request whose `url` parameter is
present but equal to the empty string is answered with 400, although the
parameter is not missing — `if (!url)` also fires on the empty string. -/
theorem relay_400_on_empty_url_param :
    (relayGET (some "") (.fetched 200 (some "application/pdf") [37])).status = 400 ∧
    (some "" : Option String) ≠ none := by
  refine ⟨?_, by simp⟩
  simp [relayGET]

end DocViewer
